import Mathlib

/-!
Verification development for the QuickADB repository.

QuickADB is a PyQt6 desktop GUI wrapping the `adb` / `fastboot` command-line
tools.  The engineering substance that this development embeds is the pure
text-processing and control-flow logic of the worker classes:

* `src/modules/fileexplorer.py`  — `ADBThread.run`, `process_directory_listing`,
  `handle_pull_result` and the chmod fallback chain;
* `src/modules/partitionmanager.py` — `PartitionLoadWorker.run`,
  `get_partition_size`, `PartitionManager.flash_partition`;
* `src/modules/appmanager.py` — `parse_app_info`, `load_apps`,
  `create_preset`, `_apply_preset`;
* `src/main/adbfunc.py` — `DeviceInfoWorker.run` and its formatters,
  `WirelessADBDialog._validate_address` / `_connect_wireless_adb`;
* `src/modules/bootanimcreator.py` — `pull_root_zip_sync`.

Python string primitives (`str.split` with and without `maxsplit`,
`str.splitlines`, `str.strip`, `int(...)`, substring membership, …) are
modelled on `List Char` so that every definition is executable and
kernel-reducible.  The model covers the ASCII fragment these parsers operate
on; Qt / IO side effects are represented as explicit data (emitted signals,
dialog lists, command traces), and the outcome of each external subprocess is
an explicit parameter of the embedded function.
-/

namespace Py

/-- Characters treated as whitespace by Python `str.split()` / `str.strip()`
(ASCII fragment: space, tab, newline, carriage return, vertical tab,
form feed). -/
def isPySpace (c : Char) : Bool :=
  c = ' ' || c = '\t' || c = '\n' || c = '\r' || c = '\x0b' || c = '\x0c'

/-- Python `s.strip()` on the character list. -/
def pyStrip (l : List Char) : List Char :=
  ((l.dropWhile isPySpace).reverse.dropWhile isPySpace).reverse

/-- Python `s.split(maxsplit = maxs)`: split on runs of whitespace, at most
`maxs` splits; leading whitespace is skipped, and once the split budget is
exhausted the remainder (with its trailing whitespace) is the final field. -/
def pySplitMax : Nat → List Char → List (List Char)
  | maxs, l =>
    let l1 := l.dropWhile isPySpace
    if l1.isEmpty then []
    else
      match maxs with
      | 0 => [l1]
      | m + 1 =>
          l1.takeWhile (fun c => !isPySpace c) ::
            pySplitMax m (l1.dropWhile (fun c => !isPySpace c))

/-- Python `s.split()` (no `maxsplit`): a split budget of `l.length` can never
be exhausted, so this is the unbounded whitespace split. -/
def pySplitWS (l : List Char) : List (List Char) :=
  pySplitMax l.length l

/-- Python `s.splitlines()`: break at `\n`, `\r` and `\r\n`, with no trailing
empty line for a trailing line break. -/
def pySplitlinesGo : List Char → List Char → List (List Char)
  | [], acc => if acc.isEmpty then [] else [acc.reverse]
  | '\r' :: '\n' :: rest, acc => acc.reverse :: pySplitlinesGo rest []
  | '\r' :: rest, acc => acc.reverse :: pySplitlinesGo rest []
  | '\n' :: rest, acc => acc.reverse :: pySplitlinesGo rest []
  | c :: rest, acc => pySplitlinesGo rest (c :: acc)

/-- Python `s.splitlines()` at the `String` boundary. -/
def pySplitlines (s : String) : List (List Char) :=
  pySplitlinesGo s.data []

/-- Python `sub in s` (substring containment; `sub = ""` is always `True`). -/
def containsSub (sub : List Char) : List Char → Bool
  | [] => sub.isEmpty
  | c :: rest => sub.isPrefixOf (c :: rest) || containsSub sub rest

/-- Python `s.startswith(p)`. -/
def startsWith (p l : List Char) : Bool :=
  p.isPrefixOf l

/-- Split at the first occurrence of the (non-empty) separator `sep`,
returning the parts before and after it; `none` when `sep` does not occur.
Models Python `s.split(sep, 1)` in the occurring case. -/
def splitFirstSub (sep : List Char) : List Char → Option (List Char × List Char)
  | [] => if sep.isEmpty then some ([], []) else none
  | c :: rest =>
    if sep.isPrefixOf (c :: rest) then some ([], (c :: rest).drop sep.length)
    else
      match splitFirstSub sep rest with
      | some (a, b) => some (c :: a, b)
      | none => none

/-- Python `s.rsplit(ch, 1)` in the occurring case: the parts before and
after the last occurrence of the character `ch`. -/
def rsplitLastChar (ch : Char) (l : List Char) : Option (List Char × List Char) :=
  match splitFirstSub [ch] l.reverse with
  | some (a, b) => some (b.reverse, a.reverse)
  | none => none

/-- Python `s.split(ch)` for a single-character separator (keeps empty
fields, always returns at least one field). -/
def splitAllChar (ch : Char) : List Char → List (List Char)
  | [] => [[]]
  | c :: rest =>
    match splitAllChar ch rest with
    | [] => [[]]
    | h :: t => if c = ch then [] :: h :: t else (c :: h) :: t

/-- Continuation of a digit sequence accepted by Python `int(str)`: digits,
with an underscore allowed only when a digit follows it. -/
def digitsRest : List Char → Bool
  | [] => true
  | '_' :: rest =>
    match rest with
    | [] => false
    | d :: rs => d.isDigit && digitsRest rs
  | c :: rest => c.isDigit && digitsRest rest

/-- Validity of the digit part accepted by Python `int(str)`: a non-empty
digit sequence in which underscores may appear only between digits. -/
def digitsOK : List Char → Bool
  | [] => false
  | c :: rest => c.isDigit && digitsRest rest

/-- Numeric value of a digit sequence (underscores ignored). -/
def digitsVal (l : List Char) : Nat :=
  (l.filter (fun c => c ≠ '_')).foldl (fun n c => 10 * n + (c.toNat - 48)) 0

/-- Python `int(s)` (ASCII fragment): strip whitespace, optional sign,
digits with underscores between them; `none` models `ValueError`. -/
def pyIntParse (l : List Char) : Option Int :=
  match pyStrip l with
  | '+' :: rest => if digitsOK rest then some (digitsVal rest) else none
  | '-' :: rest => if digitsOK rest then some (-(digitsVal rest : Int)) else none
  | t => if digitsOK t then some (digitsVal t) else none

/-- Python `s.isdigit()` (ASCII fragment): non-empty and all digits. -/
def pyIsDigit (l : List Char) : Bool :=
  !l.isEmpty && l.all Char.isDigit

/-- Python `s.lower()` (ASCII fragment). -/
def pyLower (l : List Char) : List Char := l.map Char.toLower

/-- Python `s.upper()` (ASCII fragment). -/
def pyUpper (l : List Char) : List Char := l.map Char.toUpper

/-- Python `s.capitalize()` (ASCII fragment): first character upper-cased,
the rest lower-cased. -/
def pyCapitalize : List Char → List Char
  | [] => []
  | c :: rest => Char.toUpper c :: rest.map Char.toLower

/-- `math.ceil(a / b)` for integer `a` and positive integer `b`, assuming the
float division is exact (true on the sizes these parsers meet). -/
def ceilDivInt (a : Int) (b : Int) : Int :=
  Int.ediv (a + b - 1) b

end Py

namespace Py

/-- `splitFirstSub` succeeds exactly when the separator occurs as a substring
(non-empty separators; for the empty separator both sides are trivially
positive). -/
theorem splitFirstSub_isSome (sep l : List Char) :
    (splitFirstSub sep l).isSome = containsSub sep l := by
  induction l with
  | nil =>
      by_cases h : sep.isEmpty <;> simp [splitFirstSub, containsSub, h]
  | cons c rest ih =>
      by_cases h : sep.isPrefixOf (c :: rest)
      · simp [splitFirstSub, containsSub, h]
      · simp only [splitFirstSub, containsSub, h, if_neg, Bool.false_or]
        rw [← ih]
        cases hs : splitFirstSub sep rest with
        | none => simp [hs]
        | some p => cases p; simp [hs]

end Py

/-- `(l.filterMap f).length` counts the elements on which `f` succeeds. -/
theorem length_filterMap_eq_countP {α β : Type} (f : α → Option β) (l : List α) :
    (l.filterMap f).length = l.countP (fun a => (f a).isSome) := by
  induction l with
  | nil => rfl
  | cons a rest ih =>
      cases h : f a with
      | none => simp [List.filterMap_cons, List.countP_cons, h, ih]
      | some b => simp [List.filterMap_cons, List.countP_cons, h, ih]

namespace FileExplorer

/-!
Embedding of `src/modules/fileexplorer.py`.
-/

/-- One emission of the `command_finished` signal: `(output, is_error)`. -/
abbrev Emission := String × Bool

/-- Outcome of the `subprocess.check_output` call in `ADBThread.run`:
it either returns the captured output (return code 0), raises
`CalledProcessError` carrying the non-zero return code and the captured
output (`e.output`, possibly empty) whose `str(e)` is `msg`, or raises some
other exception rendered as `msg`. -/
inductive CheckOutputOutcome where
  | ok (out : String)
  | cpe (rc : Int) (out : String) (msg : String)
  | exc (msg : String)
deriving DecidableEq

/-- `ADBThread.run` (`src/modules/fileexplorer.py` lines 46-65): the list of
`command_finished` emissions produced on each control path.  On success it
emits `(output, False)`; on `CalledProcessError` it emits
`(e.output or str(e), True)`; on any other exception `(str(e), True)`. -/
def adbThreadRun : CheckOutputOutcome → List Emission
  | .ok out => [(out, false)]
  | .cpe _ out msg => [(if out = "" then msg else out, true)]
  | .exc msg => [(msg, true)]

/-- The subprocess return code visible in an outcome (`none` when the run
raised something other than `CalledProcessError`). -/
def outcomeReturncode : CheckOutputOutcome → Option Int
  | .ok _ => some 0
  | .cpe rc _ _ => some rc
  | .exc _ => none

end FileExplorer

/-- C3: every execution of `ADBThread.run` emits `command_finished` exactly
once, on every control path; the emission has `is_error = False` iff the
subprocess exited with return code 0 (`CalledProcessError` is raised exactly
for non-zero return codes), and carries `is_error = True` with the captured
or exception text otherwise. -/
theorem fileexplorer_adbthread_run_emits_once (oc : FileExplorer.CheckOutputOutcome)
    (wf : ∀ rc out msg, oc = .cpe rc out msg → rc ≠ 0) :
    (FileExplorer.adbThreadRun oc).length = 1 ∧
    ∀ p ∈ FileExplorer.adbThreadRun oc,
      (p.2 = false ↔ FileExplorer.outcomeReturncode oc = some 0) := by
  cases oc with
  | ok out => simp [FileExplorer.adbThreadRun, FileExplorer.outcomeReturncode]
  | cpe rc out msg =>
      refine ⟨rfl, ?_⟩
      intro p hp
      have hrc : rc ≠ 0 := wf rc out msg rfl
      simp only [FileExplorer.adbThreadRun, List.mem_singleton] at hp
      subst hp
      simp [FileExplorer.outcomeReturncode, hrc]
  | exc msg =>
      refine ⟨rfl, ?_⟩
      intro p hp
      simp only [FileExplorer.adbThreadRun, List.mem_singleton] at hp
      subst hp
      simp [FileExplorer.outcomeReturncode]

/-- Witness for C3 at the concrete outcome `ok "done"`. -/
theorem fileexplorer_adbthread_run_emits_once_witness :
    (FileExplorer.adbThreadRun (.ok "done")).length = 1 ∧
    ∀ p ∈ FileExplorer.adbThreadRun (.ok "done"),
      (p.2 = false ↔ FileExplorer.outcomeReturncode (.ok "done") = some 0) :=
  fileexplorer_adbthread_run_emits_once (.ok "done") (by intro rc out msg h; cases h)


namespace FileExplorer

/-- One parsed row of the file table, as appended by
`process_directory_listing` (`src/modules/fileexplorer.py` lines 407-443):
`(name, file_type, size_str, date_str, safe_int(size), is_folder,
symlink_info)`. -/
structure FileRow where
  name : String
  fileType : String
  sizeStr : String
  dateStr : String
  sizeKey : Int
  isFolder : Bool
  symlinkTarget : Option String
deriving DecidableEq, Repr

/-- `ADBFileExplorer.detect_type`: extension after the last dot, upper-cased,
or `"File"` when the name has no dot. -/
def detect_type (name : List Char) : String :=
  if name.contains '.' then String.mk (Py.pyUpper ((Py.splitAllChar '.' name).getLastD []))
  else "File"

/-- `ADBFileExplorer.safe_int`: `int(s.replace(',', ''))`, or 0 on a parse
error. -/
def safe_int (l : List Char) : Int :=
  match Py.pyIntParse (l.filter (fun c => c ≠ ',')) with
  | some n => n
  | none => 0

/-- The skip conditions of the first two `continue`s of the
`process_directory_listing` loop: blank lines, lines starting with `total`,
lines containing `Permission denied` or starting with `ls:` or
`cannot access`. -/
def claimSkips (line : List Char) : Bool :=
  (Py.pyStrip line).isEmpty || Py.startsWith "total".data line ||
  Py.containsSub "Permission denied".data line || Py.startsWith "ls:".data line ||
  Py.startsWith "cannot access".data line

/-- The entry name of a line: field 7 of the whitespace `maxsplit=7` split
(`name_part`), cut before the first `->` and stripped when one is present
(the loop's `name_target[0].strip()`), verbatim otherwise. -/
def claimNameOf (line : List Char) : List Char :=
  match Py.splitFirstSub "->".data ((Py.pySplitMax 7 line).getD 7 []) with
  | some (a, _) => Py.pyStrip a
  | none => (Py.pySplitMax 7 line).getD 7 []

/-- The symlink target of a line: the stripped part after the first `->` of
field 7 (`name_target[1].strip()`), `none` when `->` does not occur. -/
def symlinkTargetOf (line : List Char) : Option (List Char) :=
  match Py.splitFirstSub "->".data ((Py.pySplitMax 7 line).getD 7 []) with
  | some (_, b) => some (Py.pyStrip b)
  | none => none

/-- The folder test of the loop body: `perms.startswith('d') or
perms.startswith('l')` on field 0. -/
def folderOf (line : List Char) : Bool :=
  Py.startsWith "d".data ((Py.pySplitMax 7 line).getD 0 []) ||
  Py.startsWith "l".data ((Py.pySplitMax 7 line).getD 0 [])

/-- The row appended for a line that passes every skip: fields as in the
loop body (`perms = parts[0]`, `size = parts[4]`,
`date_str = parts[5] + " " + parts[6]`, `name_part = parts[7]`). -/
def mkRow (fmtSize : List Char → String) (line : List Char) : FileRow :=
  { name := String.mk (claimNameOf line)
    fileType := if folderOf line then "Folder" else detect_type (claimNameOf line)
    sizeStr := if folderOf line then "-" else fmtSize ((Py.pySplitMax 7 line).getD 4 [])
    dateStr := String.mk ((Py.pySplitMax 7 line).getD 5 []) ++ " " ++
      String.mk ((Py.pySplitMax 7 line).getD 6 [])
    sizeKey := safe_int ((Py.pySplitMax 7 line).getD 4 [])
    isFolder := folderOf line
    symlinkTarget := (symlinkTargetOf line).map String.mk }

/-- The per-line body of the `process_directory_listing` loop
(`src/modules/fileexplorer.py` lines 407-443).  `fmtSize` abstracts
`format_size_safe`, which renders a byte count through Python float
arithmetic and so is kept as a parameter; the field computations of the loop
body are factored into `claimNameOf`, `symlinkTargetOf`, `folderOf` and
`mkRow`. -/
def parseLsLine (fmtSize : List Char → String) (line : List Char) : Option FileRow :=
  if (Py.pyStrip line).isEmpty then none
  else if Py.startsWith "total".data line then none
  else if Py.containsSub "Permission denied".data line then none
  else if Py.startsWith "ls:".data line then none
  else if Py.startsWith "cannot access".data line then none
  else if (Py.pySplitMax 7 line).length < 8 then none
  else if (claimNameOf line).isEmpty || claimNameOf line = ".".data ||
      claimNameOf line = "..".data then none
  else some (mkRow fmtSize line)

/-- The list of rows `process_directory_listing` builds from the captured
`ls -la` text (before the display-only sorting and the `..` entry). -/
def processRows (fmtSize : List Char → String) (output : String) : List FileRow :=
  (Py.pySplitlines output).filterMap (parseLsLine fmtSize)

/-- The claim's row-production condition, following the claim's own words:
a line splitting into at least 8 fields that none of the listed skip rules
hit and whose entry name is neither `.` nor `..`. -/
def claimProducesRow (line : List Char) : Bool :=
  !claimSkips line && decide ((Py.pySplitMax 7 line).length ≥ 8) &&
  !(claimNameOf line = ".".data) && !(claimNameOf line = "..".data)

/-- The actual row-production condition of the code: the claim's condition
plus the skip of entries whose name is empty after the symlink split (the
`if not name` half of `if not name or name in (".", "..")`). -/
def producesRow (line : List Char) : Bool :=
  claimProducesRow line && !(claimNameOf line).isEmpty

/-- Closed form of the loop body: a row is produced exactly under
`producesRow`, and then it is `mkRow`. -/
theorem parseLsLine_eq (f : List Char → String) (line : List Char) :
    parseLsLine f line = if producesRow line then some (mkRow f line) else none := by
  simp only [parseLsLine, producesRow, claimProducesRow]
  by_cases h1 : (Py.pyStrip line).isEmpty
  · simp [claimSkips, h1]
  by_cases h2 : Py.startsWith "total".data line
  · simp [claimSkips, h1, h2]
  by_cases h3 : Py.containsSub "Permission denied".data line
  · simp [claimSkips, h1, h2, h3]
  by_cases h4 : Py.startsWith "ls:".data line
  · simp [claimSkips, h1, h2, h3, h4]
  by_cases h5 : Py.startsWith "cannot access".data line
  · simp [claimSkips, h1, h2, h3, h4, h5]
  by_cases h6 : (Py.pySplitMax 7 line).length < 8
  · simp [claimSkips, h1, h2, h3, h4, h5, h6, Nat.not_le.mpr h6]
  have h6' : 8 ≤ (Py.pySplitMax 7 line).length := Nat.not_lt.mp h6
  by_cases hn1 : (claimNameOf line).isEmpty
  · simp [claimSkips, h1, h2, h3, h4, h5, h6, hn1]
  by_cases hn2 : claimNameOf line = ".".data
  · simp [claimSkips, h1, h2, h3, h4, h5, h6, hn1, hn2]
  by_cases hn3 : claimNameOf line = "..".data
  · simp [claimSkips, h1, h2, h3, h4, h5, h6, hn1, hn2, hn3]
  simp [claimSkips, h1, h2, h3, h4, h5, h6, h6', hn1, hn2, hn3]

end FileExplorer

/-- C1 (counterexample): the line `lrwxrwxrwx 1 root root 4 Jan 1 ->x` —
`ls -la` output for an entry whose name begins with `->` — splits into 8
fields and none of the claim's skip rules (blank, `total`,
`Permission denied`, `ls:`, `cannot access`, name `.` or `..`) hits it, so
the claim demands exactly one row for it; `process_directory_listing`
produces no row, because the name left of the first `->` is empty and the
loop's `if not name` skip — absent from the claim — drops the line. -/
theorem fileexplorer_C1_counterexample :
    FileExplorer.claimProducesRow ("lrwxrwxrwx 1 root root 4 Jan 1 ->x").data = true ∧
    (Py.pySplitlines "lrwxrwxrwx 1 root root 4 Jan 1 ->x").countP
      FileExplorer.claimProducesRow = 1 ∧
    FileExplorer.processRows String.mk "lrwxrwxrwx 1 root root 4 Jan 1 ->x" = [] :=
  ⟨by decide, by decide, by decide⟩

/-- C1 (amended): for every captured `ls -la` text, the parsed row list has
exactly one row per line satisfying the claim's production condition
*extended with a non-empty entry name*; every produced row is classified a
Folder iff its permission field starts with `d` or `l`, its name is field 7
cut at the first `->` (stripped) when `->` occurs — with the stripped part
after the `->` recorded as the symlink target — and field 7 verbatim with no
target otherwise. -/
theorem fileexplorer_process_directory_listing_rows
    (fmtSize : List Char → String) (output : String) :
    (FileExplorer.processRows fmtSize output).length
      = (Py.pySplitlines output).countP FileExplorer.producesRow
    ∧ ∀ line ∈ Py.pySplitlines output, ∀ row,
        FileExplorer.parseLsLine fmtSize line = some row →
          row.isFolder = FileExplorer.folderOf line ∧
          row.name = String.mk (FileExplorer.claimNameOf line) ∧
          (∀ a b, Py.splitFirstSub "->".data ((Py.pySplitMax 7 line).getD 7 [])
              = some (a, b) →
              row.name = String.mk (Py.pyStrip a) ∧
              row.symlinkTarget = some (String.mk (Py.pyStrip b))) ∧
          (Py.splitFirstSub "->".data ((Py.pySplitMax 7 line).getD 7 []) = none →
              row.symlinkTarget = none) := by
  constructor
  · unfold FileExplorer.processRows
    rw [length_filterMap_eq_countP]
    refine List.countP_congr (fun l _ => ?_)
    rw [FileExplorer.parseLsLine_eq]
    by_cases h : FileExplorer.producesRow l <;> simp [h]
  · intro line _ row hrow
    rw [FileExplorer.parseLsLine_eq] at hrow
    by_cases h : FileExplorer.producesRow line
    · rw [if_pos h] at hrow
      obtain rfl := (Option.some.inj hrow).symm
      refine ⟨rfl, rfl, ?_, ?_⟩
      · intro a b hs
        constructor
        · simp only [FileExplorer.mkRow, FileExplorer.claimNameOf, hs]
        · simp only [FileExplorer.mkRow, FileExplorer.symlinkTargetOf, hs]
          rfl
      · intro hs
        simp only [FileExplorer.mkRow, FileExplorer.symlinkTargetOf, hs]
        rfl
    · rw [if_neg h] at hrow
      cases hrow

/-- Witness for the amended C1 at a concrete listing containing a symlink
entry: the produced row is a Folder, as its permission field starts with
`l`. -/
theorem fileexplorer_process_directory_listing_rows_witness :
    (FileExplorer.mkRow String.mk
        ("lrwxrwxrwx 1 root root 4 2023-01-01 12:00 link -> /target").data).isFolder
      = FileExplorer.folderOf
        ("lrwxrwxrwx 1 root root 4 2023-01-01 12:00 link -> /target").data :=
  ((fileexplorer_process_directory_listing_rows String.mk
      "total 16\nlrwxrwxrwx 1 root root 4 2023-01-01 12:00 link -> /target").2
    ("lrwxrwxrwx 1 root root 4 2023-01-01 12:00 link -> /target").data
    (by decide)
    (FileExplorer.mkRow String.mk
      ("lrwxrwxrwx 1 root root 4 2023-01-01 12:00 link -> /target").data)
    (by decide)).1

namespace Subproc

/-- Outcome of one `subprocess.run` call: normal completion with a return
code and captured streams, expiry of the `timeout` parameter, or any other
exception rendered as `msg`. -/
inductive RunOutcome where
  | completed (rc : Int) (stdout stderr : String)
  | timedOut
  | raised (msg : String)
deriving DecidableEq

end Subproc

namespace FileExplorer

/-- A UI-side effect of the pull-result handlers: log/status text, progress
dialog updates, message boxes, and the two ways of issuing a device command
(an `ADBThread` running `adb shell <cmd>`, a `TransferRunner` running
`adb <args>`). -/
inductive UiAction where
  | statusMessage (s : String)
  | progressLabel (s : String)
  | closeProgress
  | showCritical (title msg : String)
  | startAdbShell (cmd : String)
  | startTransfer (args : List String)
deriving DecidableEq

/-- An action that sends a command to the device. -/
def isDeviceCommand : UiAction → Bool
  | .startAdbShell _ => true
  | .startTransfer _ => true
  | _ => false

/-- `ADBFileExplorer.chmod_and_pull` (lines 803-806): starts an `ADBThread`
running `adb shell chmod -R 777 "<source>"` (whose completion callback is
`perform_pull_after_chmod`). -/
def chmod_and_pull (source : String) : List UiAction :=
  [.startAdbShell ("chmod -R 777 \"" ++ source ++ "\"")]

/-- `ADBFileExplorer.handle_pull_result` (lines 794-801): on a failed pull
it logs, relabels the progress dialog and invokes the chmod fallback; on
success it closes the progress dialog and reports success. -/
def handle_pull_result (output : String) (error : Bool) (name source dest : String) :
    List UiAction :=
  if error then
    [.statusMessage ("Regular pull failed for " ++ name ++ ", trying chmod fallback..."),
     .progressLabel ("Regular pull failed, trying chmod for " ++ name ++ "...")] ++
    chmod_and_pull source
  else
    [.closeProgress, .statusMessage ("Successfully pulled " ++ name)]

/-- `ADBFileExplorer.perform_pull_after_chmod` (lines 808-818): on a failed
chmod it reports and stops; on success it starts a second `TransferRunner`
pull of the same source. -/
def perform_pull_after_chmod (output : String) (error : Bool) (source dest name : String) :
    List UiAction :=
  if error then
    [.closeProgress,
     .showCritical "Error" ("Failed to set permissions for " ++ name ++ ": " ++ output),
     .statusMessage ("Failed to set permissions for " ++ name)]
  else
    [.progressLabel ("Pulling " ++ name ++ " after chmod..."),
     .startTransfer ["pull", source, dest]]

/-- `ADBFileExplorer.finish_chmod_pull` (lines 820-826): terminal handler of
the fallback chain; reports and issues no further command. -/
def finish_chmod_pull (output : String) (error : Bool) (name : String) : List UiAction :=
  .closeProgress ::
  (if error then
    [.showCritical "Error" ("Failed to pull " ++ name ++ " even after chmod: " ++ output),
     .statusMessage ("Failed to pull " ++ name)]
  else
    [.statusMessage ("Successfully pulled " ++ name ++ " using chmod method")])

end FileExplorer

namespace BootAnim

/-- A command issued by `pull_root_zip_sync`: either an argv list or a
`shell=True` command string. -/
inductive PullCmd where
  | argv (args : List String)
  | shellStr (s : String)
deriving DecidableEq

/-- The fixed staging path of `pull_root_zip_sync`. -/
def tmpRemote : String := "/data/local/tmp/bootanimation_quickadb.zip"

/-- Attempt 1 copy command (list style, `timeout=25`). -/
def cp1Cmd (adb remote : String) : PullCmd :=
  .argv [adb, "shell", "su", "-c",
    "cp \"" ++ remote ++ "\" \"" ++ tmpRemote ++ "\" && chmod 0644 \"" ++ tmpRemote ++ "\""]

/-- The pull command shared by all three attempts (`timeout=90`). -/
def pullCmd (adb localDest : String) : PullCmd :=
  .argv [adb, "pull", tmpRemote, localDest]

/-- Attempt 1 / attempt 3 cleanup command. -/
def rm1Cmd (adb : String) : PullCmd :=
  .argv [adb, "shell", "su", "-c", "rm \"" ++ tmpRemote ++ "\""]

/-- Attempt 2 copy command (`shell=True` string style, `timeout=30`). -/
def cp2Cmd (adb remote : String) : PullCmd :=
  .shellStr (adb ++ " shell su -c 'cp \"" ++ remote ++ "\" \"" ++ tmpRemote ++
    "\" && chmod 0644 \"" ++ tmpRemote ++ "\"'")

/-- Attempt 2 cleanup command (`shell=True` string style). -/
def rm2Cmd (adb : String) : PullCmd :=
  .shellStr (adb ++ " shell \"su -c rm \\\"" ++ tmpRemote ++ "\\\"\"")

/-- Attempt 3 copy command (single shell-argument style, `timeout=20`). -/
def cp3Cmd (adb remote : String) : PullCmd :=
  .argv [adb, "shell", "su -c cp \"" ++ remote ++ "\" \"" ++ tmpRemote ++ "\""]

/-- Attempt 3 chmod command (`timeout=10`). -/
def chmod3Cmd (adb : String) : PullCmd :=
  .argv [adb, "shell", "su -c chmod 0644 \"" ++ tmpRemote ++ "\""]

/-- Call sites of `pull_root_zip_sync`, numbered in program order:
0 cp, 1 pull, 2 rm (attempt 1); 3 cp, 4 pull, 5 rm (attempt 2);
6 cp, 7 chmod, 8 pull, 9 rm (attempt 3).  `oracle` gives the outcome of
each site's `subprocess.run`, `existsDest i` the `os.path.exists(local_dest)`
test made right after site `i`'s pull. -/
def attempt3 (oracle : Nat → Subproc.RunOutcome) (existsDest : Nat → Bool)
    (adb remote localDest : String) (trace : List PullCmd) : Bool × List PullCmd :=
  let t1 := trace ++ [cp3Cmd adb remote]
  match oracle 6 with
  | .completed rc _ _ =>
    if rc = 0 then
      let t2 := t1 ++ [chmod3Cmd adb]
      match oracle 7 with
      | .completed rc2 _ _ =>
        if rc2 = 0 then
          let t3 := t2 ++ [pullCmd adb localDest]
          match oracle 8 with
          | .completed rc3 _ _ =>
            if rc3 = 0 && existsDest 8 then
              let t4 := t3 ++ [rm1Cmd adb]
              match oracle 9 with
              | .completed _ _ _ => (true, t4)
              | _ => (false, t4)
            else (false, t3)
          | _ => (false, t3)
        else (false, t2)
      | _ => (false, t2)
    else (false, t1)
  | _ => (false, t1)

/-- Attempt 2 of `pull_root_zip_sync` (`src/modules/bootanimcreator.py`
lines 136-145): the `shell=True` fallback style; any failure or exception
falls through to attempt 3. -/
def attempt2 (oracle : Nat → Subproc.RunOutcome) (existsDest : Nat → Bool)
    (adb remote localDest : String) (trace : List PullCmd) : Bool × List PullCmd :=
  let t1 := trace ++ [cp2Cmd adb remote]
  match oracle 3 with
  | .completed rc _ _ =>
    if rc = 0 then
      let t2 := t1 ++ [pullCmd adb localDest]
      match oracle 4 with
      | .completed rc2 _ _ =>
        if rc2 = 0 && existsDest 4 then
          let t3 := t2 ++ [rm2Cmd adb]
          match oracle 5 with
          | .completed _ _ _ => (true, t3)
          | _ => attempt3 oracle existsDest adb remote localDest t3
        else attempt3 oracle existsDest adb remote localDest t2
      | _ => attempt3 oracle existsDest adb remote localDest t2
    else attempt3 oracle existsDest adb remote localDest t1
  | _ => attempt3 oracle existsDest adb remote localDest t1

/-- `pull_root_zip_sync` (`src/modules/bootanimcreator.py` lines 117-157):
root-copy then pull, retried in three invocation styles; returns whether a
pull succeeded together with the chronological trace of device commands
issued. -/
def pull_root_zip_sync (oracle : Nat → Subproc.RunOutcome) (existsDest : Nat → Bool)
    (remotePath adb localDest : String) : Bool × List PullCmd :=
  let t1 := [cp1Cmd adb remotePath]
  match oracle 0 with
  | .completed rc _ _ =>
    if rc = 0 then
      let t2 := t1 ++ [pullCmd adb localDest]
      match oracle 1 with
      | .completed rc2 _ _ =>
        if rc2 = 0 && existsDest 1 then
          let t3 := t2 ++ [rm1Cmd adb]
          match oracle 2 with
          | .completed _ _ _ => (true, t3)
          | _ => attempt2 oracle existsDest adb remotePath localDest t3
        else attempt2 oracle existsDest adb remotePath localDest t2
      | _ => attempt2 oracle existsDest adb remotePath localDest t2
    else attempt2 oracle existsDest adb remotePath localDest t1
  | _ => attempt2 oracle existsDest adb remotePath localDest t1

/-- The trace of attempt 3 extends its input trace. -/
theorem attempt3_trace_mono (oracle : Nat → Subproc.RunOutcome) (existsDest : Nat → Bool)
    (adb remote localDest : String) (trace : List PullCmd) (x : PullCmd)
    (hx : x ∈ trace) :
    x ∈ (attempt3 oracle existsDest adb remote localDest trace).2 := by
  unfold attempt3
  cases oracle 6 with
  | completed rc s e =>
      by_cases h6 : rc = 0
      · simp only [h6, if_pos rfl]
        cases oracle 7 with
        | completed rc2 s2 e2 =>
            by_cases h7 : rc2 = 0
            · simp only [h7, if_pos rfl]
              cases oracle 8 with
              | completed rc3 s3 e3 =>
                  by_cases h8 : (rc3 = 0 && existsDest 8) = true
                  · simp only [h8, if_pos rfl]
                    cases oracle 9 <;> simp [hx]
                  · simp only [h8]
                    simp [hx]
              | timedOut => simp [hx]
              | raised m => simp [hx]
            · simp [h7, hx]
        | timedOut => simp [hx]
        | raised m => simp [hx]
      · simp [h6, hx]
  | timedOut => simp [hx]
  | raised m => simp [hx]

/-- Attempt 2 always issues its `shell=True` copy command. -/
theorem attempt2_issues_cp2 (oracle : Nat → Subproc.RunOutcome) (existsDest : Nat → Bool)
    (adb remote localDest : String) (trace : List PullCmd) :
    cp2Cmd adb remote ∈ (attempt2 oracle existsDest adb remote localDest trace).2 := by
  have hx : cp2Cmd adb remote ∈ trace ++ [cp2Cmd adb remote] := by simp
  unfold attempt2
  cases oracle 3 with
  | completed rc s e =>
      by_cases h3 : rc = 0
      · simp only [h3, if_pos rfl]
        cases oracle 4 with
        | completed rc2 s2 e2 =>
            by_cases h4 : (rc2 = 0 && existsDest 4) = true
            · simp only [h4, if_pos rfl]
              cases oracle 5 with
              | completed rc3 s3 e3 => simp
              | timedOut =>
                  exact attempt3_trace_mono _ _ _ _ _ _ _ (by simp)
              | raised m =>
                  exact attempt3_trace_mono _ _ _ _ _ _ _ (by simp)
            · simp only [h4]
              exact attempt3_trace_mono _ _ _ _ _ _ _ (by simp)
        | timedOut => exact attempt3_trace_mono _ _ _ _ _ _ _ (by simp)
        | raised m => exact attempt3_trace_mono _ _ _ _ _ _ _ (by simp)
      · simp only [h3, if_neg]
        exact attempt3_trace_mono _ _ _ _ _ _ _ hx
  | timedOut => exact attempt3_trace_mono _ _ _ _ _ _ _ hx
  | raised m => exact attempt3_trace_mono _ _ _ _ _ _ _ hx

end BootAnim

/-- C2 (counterexample): a failed pull *is* re-attempted by an alternative
method: on `error = True`, `handle_pull_result` issues a device command —
`adb shell chmod -R 777 "<source>"` — rather than only surfacing the error,
kicking off the chmod-fallback pull chain. -/
theorem fileexplorer_C2_counterexample :
    (FileExplorer.handle_pull_result "adb: error: failed to stat remote object" true
      "notes.txt" "/sdcard/notes.txt" "/home/user/notes.txt").countP
      FileExplorer.isDeviceCommand = 1 ∧
    FileExplorer.UiAction.startAdbShell "chmod -R 777 \"/sdcard/notes.txt\"" ∈
      FileExplorer.handle_pull_result "adb: error: failed to stat remote object" true
        "notes.txt" "/sdcard/notes.txt" "/home/user/notes.txt" :=
  ⟨by decide, by decide⟩

/-- C2 (amended): failed wrapped commands are surfaced as message boxes or
log lines, *except* that a failed pull is retried: `handle_pull_result`
reacts to a pull failure by running `chmod -R 777` on the source and — when
the chmod succeeds — `perform_pull_after_chmod` starts a second pull; only
`finish_chmod_pull`, the end of that chain, reports failure with no further
device command.  Likewise `pull_root_zip_sync` re-attempts a failed
root-copy-and-pull with the alternative `shell=True` invocation style. -/
theorem quickadb_pull_failure_fallback (output name source dest : String) :
    FileExplorer.handle_pull_result output true name source dest =
      [.statusMessage ("Regular pull failed for " ++ name ++ ", trying chmod fallback..."),
       .progressLabel ("Regular pull failed, trying chmod for " ++ name ++ "..."),
       .startAdbShell ("chmod -R 777 \"" ++ source ++ "\"")] ∧
    FileExplorer.perform_pull_after_chmod output false source dest name =
      [.progressLabel ("Pulling " ++ name ++ " after chmod..."),
       .startTransfer ["pull", source, dest]] ∧
    (FileExplorer.finish_chmod_pull output true name).countP
      FileExplorer.isDeviceCommand = 0 ∧
    ∀ (oracle : Nat → Subproc.RunOutcome) (existsDest : Nat → Bool)
      (remote adb localDest : String) (rc : Int) (s e : String),
      oracle 0 = .completed rc s e → rc ≠ 0 →
        BootAnim.cp2Cmd adb remote ∈
          (BootAnim.pull_root_zip_sync oracle existsDest remote adb localDest).2 := by
  refine ⟨rfl, rfl, rfl, ?_⟩
  intro oracle existsDest remote adb localDest rc s e h0 hrc
  unfold BootAnim.pull_root_zip_sync
  rw [h0]
  simp only [if_neg hrc]
  exact BootAnim.attempt2_issues_cp2 oracle existsDest adb remote localDest _

/-- Witness for the amended C2: with every subprocess completing with return
code 1, the shell-style fallback copy is issued after the first copy
fails. -/
theorem quickadb_pull_failure_fallback_witness :
    BootAnim.cp2Cmd "adb" "/system/media/bootanimation.zip" ∈
      (BootAnim.pull_root_zip_sync (fun _ => .completed 1 "" "") (fun _ => false)
        "/system/media/bootanimation.zip" "adb" "/tmp/bootanimation.zip").2 :=
  (quickadb_pull_failure_fallback "" "n" "s" "d").2.2.2
    (fun _ => .completed 1 "" "") (fun _ => false)
    "/system/media/bootanimation.zip" "adb" "/tmp/bootanimation.zip"
    1 "" "" rfl (by decide)

namespace PartitionMgr

/-- One partition entry as built by `PartitionLoadWorker.run`
(`src/modules/partitionmanager.py` lines 114-120). -/
structure PartitionInfo where
  name : String
  path : String
  permissions : String
  size_bytes : Nat
  size_human : String
deriving DecidableEq, Repr

/-- `PartitionLoadWorker.get_partition_size` (lines 52-68): the integer
value of the stripped `blockdev --getsize64` stdout when the command
returned 0 and the stripped output is all digits, else 0 (also on any
exception). -/
def get_partition_size (res : Subproc.RunOutcome) : Nat :=
  match res with
  | .completed rc out _ =>
      if rc = 0 then
        if Py.pyIsDigit (Py.pyStrip out.data) then Py.digitsVal (Py.pyStrip out.data)
        else 0
      else 0
  | .timedOut => 0
  | .raised _ => 0

/-- The per-line body of the `PartitionLoadWorker.run` loop (lines 93-125):
at least 9 whitespace fields, permission field containing `lrwxrwxrwx` and
line containing `->`; name from `parts[-3]`, path from `parts[-1]`.
`sizeOf` abstracts the `get_partition_size` subprocess round trip per
partition name, `fmt` the float-formatted `FormatSize.human_readable_size`. -/
def parsePartitionLine (sizeOf : String → Nat) (fmt : Nat → String)
    (line : List Char) : Option PartitionInfo :=
  let parts := Py.pySplitWS line
  if parts.length < 9 then none
  else
    let permissions := parts.getD 0 []
    let name := parts.getD (parts.length - 3) []
    let path := parts.getD (parts.length - 1) []
    if Py.containsSub "lrwxrwxrwx".data permissions && Py.containsSub "->".data line then
      some { name := String.mk name
             path := String.mk path
             permissions := String.mk permissions
             size_bytes := sizeOf (String.mk name)
             size_human := fmt (sizeOf (String.mk name)) }
    else none

/-- `PartitionLoadWorker.run` (lines 70-133): non-zero return code or at
most one output line is an error; otherwise the `total` line is dropped and
every remaining line parsed. -/
def partitionLoadRun (sizeOf : String → Nat) (fmt : Nat → String)
    (res : Subproc.RunOutcome) : Except String (List PartitionInfo) :=
  match res with
  | .completed rc out err =>
      if rc ≠ 0 then
        .error ("Failed to load partitions:\n" ++ String.mk (Py.pyStrip err.data))
      else if (Py.pySplitlines out).length ≤ 1 then
        .error "No partitions found or device not accessible."
      else
        .ok (((Py.pySplitlines out).drop 1).filterMap (parsePartitionLine sizeOf fmt))
  | .timedOut => .error "Error loading partitions:\nTimeoutExpired"
  | .raised msg => .error ("Error loading partitions:\n" ++ msg)

/-- The claim's per-line production condition: at least 9 whitespace fields,
permission field containing `lrwxrwxrwx`, line containing `->`. -/
def producesPartition (line : List Char) : Bool :=
  decide (9 ≤ (Py.pySplitWS line).length) &&
  Py.containsSub "lrwxrwxrwx".data ((Py.pySplitWS line).getD 0 []) &&
  Py.containsSub "->".data line

/-- A line produces a partition entry exactly under `producesPartition`. -/
theorem parsePartitionLine_isSome (sizeOf : String → Nat) (fmt : Nat → String)
    (line : List Char) :
    (parsePartitionLine sizeOf fmt line).isSome = producesPartition line := by
  simp only [parsePartitionLine, producesPartition]
  by_cases h1 : (Py.pySplitWS line).length < 9
  · simp [h1, Nat.not_le.mpr h1]
  have h1' : 9 ≤ (Py.pySplitWS line).length := Nat.not_lt.mp h1
  rw [if_neg h1]
  rcases Bool.eq_false_or_eq_true
      (Py.containsSub "lrwxrwxrwx".data ((Py.pySplitWS line).getD 0 [])) with h2 | h2 <;>
  rcases Bool.eq_false_or_eq_true (Py.containsSub "->".data line) with h3 | h3 <;>
  rw [h2, h3] <;> simp [h1']

end PartitionMgr

/-- C5: `PartitionLoadWorker` produces one partition entry per line after
the first, exactly for lines with at least 9 whitespace fields whose
permission field contains `lrwxrwxrwx` and which contain `->`; the name is
the third-from-last field, the path the last field, and `size_bytes` is the
integer value of the stripped `blockdev --getsize64` output, or 0 whenever
that command fails or its stripped output is not all digits. -/
theorem partitionmanager_load_worker_partitions
    (bo : String → Subproc.RunOutcome) (fmt : Nat → String) (out err : String)
    (hlen : 2 ≤ (Py.pySplitlines out).length) :
    (∃ l, PartitionMgr.partitionLoadRun
        (fun nm => PartitionMgr.get_partition_size (bo nm)) fmt
        (.completed 0 out err) = .ok l ∧
      l.length = ((Py.pySplitlines out).drop 1).countP PartitionMgr.producesPartition ∧
      ∀ line ∈ (Py.pySplitlines out).drop 1, ∀ p,
        PartitionMgr.parsePartitionLine
            (fun nm => PartitionMgr.get_partition_size (bo nm)) fmt line = some p →
          p.permissions = String.mk ((Py.pySplitWS line).getD 0 []) ∧
          p.name = String.mk ((Py.pySplitWS line).getD ((Py.pySplitWS line).length - 3) []) ∧
          p.path = String.mk ((Py.pySplitWS line).getD ((Py.pySplitWS line).length - 1) []) ∧
          p.size_bytes = PartitionMgr.get_partition_size (bo p.name)) ∧
    (∀ s e, PartitionMgr.get_partition_size (.completed 0 s e) =
        if Py.pyIsDigit (Py.pyStrip s.data) then Py.digitsVal (Py.pyStrip s.data) else 0) ∧
    (∀ rc s e, rc ≠ 0 → PartitionMgr.get_partition_size (.completed rc s e) = 0) ∧
    (∀ m, PartitionMgr.get_partition_size (.raised m) = 0) ∧
    PartitionMgr.get_partition_size .timedOut = 0 := by
  have hgt : ¬((Py.pySplitlines out).length ≤ 1) := by omega
  refine ⟨⟨((Py.pySplitlines out).drop 1).filterMap
      (PartitionMgr.parsePartitionLine
        (fun nm => PartitionMgr.get_partition_size (bo nm)) fmt), ?_, ?_, ?_⟩,
    fun s e => rfl, ?_, fun m => rfl, rfl⟩
  · simp [PartitionMgr.partitionLoadRun, hgt]
  · rw [length_filterMap_eq_countP]
    exact List.countP_congr
      (fun l _ => by rw [PartitionMgr.parsePartitionLine_isSome])
  · intro line _ p hp
    simp only [PartitionMgr.parsePartitionLine] at hp
    by_cases h1 : (Py.pySplitWS line).length < 9
    · rw [if_pos h1] at hp; cases hp
    rw [if_neg h1] at hp
    by_cases h2 : (Py.containsSub "lrwxrwxrwx".data ((Py.pySplitWS line).getD 0 []) &&
        Py.containsSub "->".data line) = true
    · rw [if_pos h2] at hp
      obtain rfl := (Option.some.inj hp).symm
      exact ⟨rfl, rfl, rfl, rfl⟩
    · rw [if_neg h2] at hp; cases hp
  · intro rc s e h
    simp [PartitionMgr.get_partition_size, h]

/-- Witness for C5 at a concrete two-line `ls -l /dev/block/by-name` output
and a `blockdev` oracle answering `4096`. -/
theorem partitionmanager_load_worker_partitions_witness :
    ∃ l, PartitionMgr.partitionLoadRun
        (fun nm => PartitionMgr.get_partition_size
          ((fun _ => Subproc.RunOutcome.completed 0 "4096\n" "") nm))
        (fun n => toString n)
        (.completed 0
          "total 0\nlrwxrwxrwx 1 root root 16 2023-01-01 12:00 boot -> /dev/block/sda5"
          "") = .ok l ∧
      l.length = ((Py.pySplitlines
          "total 0\nlrwxrwxrwx 1 root root 16 2023-01-01 12:00 boot -> /dev/block/sda5").drop 1).countP
          PartitionMgr.producesPartition ∧
      ∀ line ∈ (Py.pySplitlines
          "total 0\nlrwxrwxrwx 1 root root 16 2023-01-01 12:00 boot -> /dev/block/sda5").drop 1,
        ∀ p, PartitionMgr.parsePartitionLine
            (fun nm => PartitionMgr.get_partition_size
              ((fun _ => Subproc.RunOutcome.completed 0 "4096\n" "") nm))
            (fun n => toString n) line = some p →
          p.permissions = String.mk ((Py.pySplitWS line).getD 0 []) ∧
          p.name = String.mk ((Py.pySplitWS line).getD ((Py.pySplitWS line).length - 3) []) ∧
          p.path = String.mk ((Py.pySplitWS line).getD ((Py.pySplitWS line).length - 1) []) ∧
          p.size_bytes = PartitionMgr.get_partition_size
            ((fun _ => Subproc.RunOutcome.completed 0 "4096\n" "") p.name) :=
  (partitionmanager_load_worker_partitions
    (fun _ => Subproc.RunOutcome.completed 0 "4096\n" "")
    (fun n => toString n)
    "total 0\nlrwxrwxrwx 1 root root 16 2023-01-01 12:00 boot -> /dev/block/sda5"
    "" (by decide)).1

namespace PartitionMgr

/-- The observable result of one `flash_partition` invocation: the dialogs
shown (by window title), the flash worker started (partition plus image
path) if any, and whether the UI was put into the disabled
operation-in-progress state. -/
structure FlashResult where
  dialogs : List String
  worker : Option (PartitionInfo × String)
  uiDisabled : Bool
deriving DecidableEq

/-- `PartitionManager.flash_partition` (`src/modules/partitionmanager.py`
lines 613-671): zero selected partitions shows the `No Selection` warning
and returns; more than one shows the `Multiple Selections` error and
returns; exactly one shows the danger confirmation and — only when the user
confirms and picks an image file — starts a `PartitionFlashWorker` and
disables the UI.  `confirmYes` models the reply to the confirmation dialog,
`imagePath` the file-picker result. -/
def flash_partition (selected : List PartitionInfo) (confirmYes : Bool)
    (imagePath : Option String) : FlashResult :=
  match selected with
  | [] => { dialogs := ["No Selection"], worker := none, uiDisabled := false }
  | _ :: _ :: _ =>
      { dialogs := ["Multiple Selections"], worker := none, uiDisabled := false }
  | [p] =>
      if !confirmYes then
        { dialogs := ["Flash Partition - DANGER"], worker := none, uiDisabled := false }
      else
        match imagePath with
        | none =>
            { dialogs := ["Flash Partition - DANGER"], worker := none, uiDisabled := false }
        | some img =>
            { dialogs := ["Flash Partition - DANGER"], worker := some (p, img),
              uiDisabled := true }

end PartitionMgr

/-- C9: `flash_partition` issues device commands only when exactly one
partition is selected: with zero or several selected partitions it shows a
warning/error dialog and returns without creating a flash worker or
touching the manager's UI state, so no push or dd command can reach the
device. -/
theorem partitionmanager_flash_partition_selection_guard
    (selected : List PartitionMgr.PartitionInfo) (confirmYes : Bool)
    (imagePath : Option String) (h : selected.length ≠ 1) :
    (PartitionMgr.flash_partition selected confirmYes imagePath).worker = none ∧
    (PartitionMgr.flash_partition selected confirmYes imagePath).uiDisabled = false ∧
    (PartitionMgr.flash_partition selected confirmYes imagePath).dialogs ≠ [] := by
  match selected with
  | [] => exact ⟨rfl, rfl, by simp [PartitionMgr.flash_partition]⟩
  | [p] => exact absurd rfl h
  | p :: q :: rest => exact ⟨rfl, rfl, by simp [PartitionMgr.flash_partition]⟩

/-- Witness for C9 at the empty selection. -/
theorem partitionmanager_flash_partition_selection_guard_witness :
    (PartitionMgr.flash_partition [] true (some "/tmp/boot.img")).worker = none ∧
    (PartitionMgr.flash_partition [] true (some "/tmp/boot.img")).uiDisabled = false ∧
    (PartitionMgr.flash_partition [] true (some "/tmp/boot.img")).dialogs ≠ [] :=
  partitionmanager_flash_partition_selection_guard [] true (some "/tmp/boot.img")
    (by decide)

namespace CallSites

/-- One `subprocess` invocation site that runs a wrapped adb/fastboot
command, with the `timeout=` argument it passes (`none` when the call
passes no timeout). -/
structure SubprocCallSite where
  file : String
  symbol : String
  timeoutSeconds : Option Nat
deriving DecidableEq, Repr

/-- `subprocess.run(..., timeout=10)` in `DeviceInfoWorker.run`
(`src/main/adbfunc.py` lines 30-37). -/
def deviceInfoRunSite : SubprocCallSite :=
  { file := "src/main/adbfunc.py", symbol := "DeviceInfoWorker.run",
    timeoutSeconds := some 10 }

/-- `subprocess.check_output(full_command, text=True, stderr=STDOUT)` in
`ADBThread.run` (`src/modules/fileexplorer.py` line 54): no `timeout`. -/
def adbThreadRunSite : SubprocCallSite :=
  { file := "src/modules/fileexplorer.py", symbol := "ADBThread.run",
    timeoutSeconds := none }

/-- `subprocess.Popen(cmd, ...)` in `TransferRunner.run`
(`src/modules/fileexplorer.py` lines 84-91): no `timeout`. -/
def transferRunnerSite : SubprocCallSite :=
  { file := "src/modules/fileexplorer.py", symbol := "TransferRunner.run",
    timeoutSeconds := none }

/-- `subprocess.run(command, stdout=PIPE, stderr=PIPE, text=True)` for
`ls -l /dev/block/by-name` in `PartitionLoadWorker.run`
(`src/modules/partitionmanager.py` line 77): no `timeout`. -/
def partitionLoadLsSite : SubprocCallSite :=
  { file := "src/modules/partitionmanager.py", symbol := "PartitionLoadWorker.run",
    timeoutSeconds := none }

/-- `subprocess.run(command, stdout=PIPE, stderr=PIPE, text=True)` for
`blockdev --getsize64` in `PartitionLoadWorker.get_partition_size`
(`src/modules/partitionmanager.py` line 60): no `timeout`. -/
def getPartitionSizeSite : SubprocCallSite :=
  { file := "src/modules/partitionmanager.py",
    symbol := "PartitionLoadWorker.get_partition_size", timeoutSeconds := none }

/-- The wrapped-command invocation sites of the worker classes embedded in
this development. -/
def wrappedCommandCallSites : List SubprocCallSite :=
  [deviceInfoRunSite, adbThreadRunSite, transferRunnerSite,
   partitionLoadLsSite, getPartitionSizeSite]

end CallSites

/-- C7 (counterexample): not every wrapped-command subprocess invocation
passes a timeout — the `check_output` call of `ADBThread.run` passes none,
so a hung adb process blocks that worker thread indefinitely. -/
theorem callsites_C7_counterexample :
    CallSites.adbThreadRunSite ∈ CallSites.wrappedCommandCallSites ∧
    CallSites.adbThreadRunSite.timeoutSeconds = none :=
  ⟨by decide, rfl⟩

/-- C7 (amended): `DeviceInfoWorker.run` passes a 10-second timeout to each
device-info invocation, but the `ADBThread.run` `check_output` call, the
`TransferRunner.run` `Popen`, and both `subprocess.run` calls of
`PartitionLoadWorker` pass no timeout, so a hung external process can block
those workers indefinitely. -/
theorem callsites_timeout_inventory :
    CallSites.deviceInfoRunSite.timeoutSeconds = some 10 ∧
    CallSites.adbThreadRunSite.timeoutSeconds = none ∧
    CallSites.transferRunnerSite.timeoutSeconds = none ∧
    CallSites.partitionLoadLsSite.timeoutSeconds = none ∧
    CallSites.getPartitionSizeSite.timeoutSeconds = none ∧
    (CallSites.wrappedCommandCallSites.filter
      (fun c => c.timeoutSeconds ≠ none)).length = 1 :=
  ⟨rfl, rfl, rfl, rfl, rfl, by decide⟩

namespace Py

/-- The apostrophe character (written numerically to keep character
literals simple). -/
def apos : Char := Char.ofNat 39

/-- Lower-case hex digit of a value below 16. -/
def hexDigitChar (n : Nat) : Char :=
  if n < 10 then Char.ofNat (48 + n) else Char.ofNat (87 + n)

/-- Escaping of one character inside a Python `repr` string delimited by
`q` (ASCII fragment). -/
def escChar (q c : Char) : List Char :=
  if c = '\\' then ['\\', '\\']
  else if c = q then ['\\', q]
  else if c = '\n' then ['\\', 'n']
  else if c = '\r' then ['\\', 'r']
  else if c = '\t' then ['\\', 't']
  else if c.toNat < 32 || c.toNat = 127 then
    ['\\', 'x', hexDigitChar (c.toNat / 16), hexDigitChar (c.toNat % 16)]
  else [c]

/-- Python `repr(s)` for ASCII strings: single-quoted, or double-quoted
when the string contains a single quote but no double quote. -/
def pyRepr (l : List Char) : List Char :=
  if l.contains apos && !(l.contains '"') then
    '"' :: l.foldr (fun c acc => escChar '"' c ++ acc) ['"']
  else
    apos :: l.foldr (fun c acc => escChar apos c ++ acc) [apos]

end Py

namespace AdbFunc

/-- `DeviceInfoWorker._parse_imei` (`src/main/adbfunc.py` lines 81-87):
concatenate every digit run; 15-digit head when at least 14 digits were
found, `Unknown` otherwise. -/
def parse_imei (raw : List Char) : List Char :=
  let digits := raw.filter Char.isDigit
  if digits.isEmpty then "Unknown".data
  else if 14 ≤ digits.length then digits.take 15
  else "Unknown".data

/-- `DeviceInfoWorker._parse_total_ram` (lines 89-94): the integer second
field of the first `MemTotal` line, 0 when no line matches; `error` carries
the text of the `IndexError`/`ValueError` the Python code would raise. -/
def parse_total_ram (out : List Char) : Except (List Char) Int :=
  match (Py.pySplitlinesGo out []).find? (fun l => Py.containsSub "MemTotal".data l) with
  | none => .ok 0
  | some line =>
      match (Py.pySplitWS line).get? 1 with
      | none => .error "list index out of range".data
      | some p =>
          match Py.pyIntParse p with
          | some n => .ok n
          | none => .error ("invalid literal for int() with base 10: ".data ++ Py.pyRepr p)

/-- `DeviceInfoWorker._parse_total_storage` (lines 96-105): the integer
second field of the first line that mentions a storage mount point and has
an all-digit second field; 0 otherwise. -/
def parse_total_storage (out : List Char) : Int :=
  match (Py.pySplitlinesGo out []).find? (fun l =>
      (Py.containsSub "/data".data l || Py.containsSub "/data/media".data l ||
        Py.containsSub "/storage/emulated".data l) &&
      decide (2 ≤ (Py.pySplitWS l).length) &&
      Py.pyIsDigit ((Py.pySplitWS l).getD 1 [])) with
  | some l => (Py.digitsVal ((Py.pySplitWS l).getD 1 []) : Int)
  | none => 0

/-- `DeviceInfoWorker._format_output` (lines 70-79): RAM and storage are
rendered as `math.ceil(kb / 1024**2)` gigabytes, the IMEI through
`_parse_imei`, and every other label passes its output through unchanged.
The `error` case carries the exception a malformed `MemTotal` line makes
`int()` raise. -/
def format_output (label : String) (out : List Char) : Except (List Char) (List Char) :=
  if label = "Total RAM" then
    (parse_total_ram out).map
      (fun kb => (toString (Py.ceilDivInt kb 1048576)).data ++ " GB".data)
  else if label = "Total Storage" then
    .ok ((toString (Py.ceilDivInt (parse_total_storage out) 1048576)).data ++ " GB".data)
  else if label = "IMEI" then .ok (parse_imei out)
  else .ok out

/-- `DeviceInfoWorker._get_device_commands` (lines 53-68). -/
def device_commands (adb : String) : List (String × String) :=
  [("IMEI", adb ++ " shell service call iphonesubinfo 3"),
   ("Fingerprint", adb ++ " shell getprop ro.build.fingerprint"),
   ("Board", adb ++ " shell getprop ro.product.board"),
   ("Build ID", adb ++ " shell getprop ro.build.id"),
   ("Android Version", adb ++ " shell getprop ro.build.version.release"),
   ("Manufacturer", adb ++ " shell getprop ro.product.manufacturer"),
   ("Model", adb ++ " shell getprop ro.product.model"),
   ("Product Name", adb ++ " shell getprop ro.product.name"),
   ("Architecture", adb ++ " shell getprop ro.product.cpu.abi"),
   ("Resolution", adb ++ " shell wm size"),
   ("Total RAM", adb ++ " shell cat /proc/meminfo"),
   ("Total Storage", adb ++ " shell df"),
   ("Root Method", adb ++ " shell su -v")]

/-- The single result line `DeviceInfoWorker.run` appends for one command
(lines 28-49): formatted stripped stdout on return code 0, stripped stderr
after `Error - ` on non-zero, `Timeout` on `TimeoutExpired`, exception text
after `Error - ` otherwise. -/
def deviceInfoLine (label : String) (oc : Subproc.RunOutcome) : String :=
  match oc with
  | .completed rc out err =>
      if rc = 0 then
        match format_output label (Py.pyStrip out.data) with
        | .ok f => label ++ ": " ++ String.mk f
        | .error m => label ++ ": Error - " ++ String.mk m
      else label ++ ": Error - " ++ String.mk (Py.pyStrip err.data)
  | .timedOut => label ++ ": Timeout"
  | .raised m => label ++ ": Error - " ++ m

/-- `DeviceInfoWorker.run`: the list of result lines joined for the
`info_ready` emission; `oracle` gives each command's subprocess outcome. -/
def deviceInfoRun (oracle : String → Subproc.RunOutcome) (adb : String) : List String :=
  (device_commands adb).map (fun lc => deviceInfoLine lc.1 (oracle lc.2))

end AdbFunc

/-- C4 (counterexample): the return-code-0 case of the claim fails for a
malformed `MemTotal` line: with rc 0 and stdout `MemTotal: garbage kB` the
`Total RAM` formatter's `int()` raises, so the emitted line is
`Total RAM: Error - invalid literal for int() with base 10: 'garbage'`
instead of the claim's `label: <formatted stdout>` — the formatter yields
no formatted value at all. -/
theorem adbfunc_C4_counterexample :
    AdbFunc.deviceInfoLine "Total RAM"
        (.completed 0 "MemTotal: garbage kB" "") =
      "Total RAM: Error - invalid literal for int() with base 10: " ++
        String.mk (Py.pyRepr "garbage".data) ∧
    AdbFunc.format_output "Total RAM" (Py.pyStrip "MemTotal: garbage kB".data) =
      .error ("invalid literal for int() with base 10: ".data ++
        Py.pyRepr "garbage".data) :=
  ⟨by decide, rfl⟩

/-- C4 (amended): `DeviceInfoWorker.run` produces exactly one result line
per device-info command; on return code 0 the line is
`label: <formatted stripped stdout>` when the label's formatter succeeds,
and `label: Error - <exception text>` when it raises (which only a
malformed `MemTotal` line under `Total RAM` can cause); on a non-zero
return code the line is `label: Error - <stripped stderr>`, and on expiry
of the 10-second timeout `label: Timeout`. -/
theorem adbfunc_device_info_worker_lines
    (oracle : String → Subproc.RunOutcome) (adb : String) :
    (AdbFunc.deviceInfoRun oracle adb).length = (AdbFunc.device_commands adb).length ∧
    AdbFunc.deviceInfoRun oracle adb =
      (AdbFunc.device_commands adb).map
        (fun lc => AdbFunc.deviceInfoLine lc.1 (oracle lc.2)) ∧
    ∀ (label out err : String) (f m : List Char) (rc : Int),
      (AdbFunc.format_output label (Py.pyStrip out.data) = .ok f →
        AdbFunc.deviceInfoLine label (.completed 0 out err) =
          label ++ ": " ++ String.mk f) ∧
      (AdbFunc.format_output label (Py.pyStrip out.data) = .error m →
        AdbFunc.deviceInfoLine label (.completed 0 out err) =
          label ++ ": Error - " ++ String.mk m) ∧
      (rc ≠ 0 → AdbFunc.deviceInfoLine label (.completed rc out err) =
          label ++ ": Error - " ++ String.mk (Py.pyStrip err.data)) ∧
      AdbFunc.deviceInfoLine label .timedOut = label ++ ": Timeout" ∧
      (∀ lbl, lbl ≠ "Total RAM" → ∃ g,
          AdbFunc.format_output lbl (Py.pyStrip out.data) = .ok g) := by
  refine ⟨by simp [AdbFunc.deviceInfoRun], rfl, ?_⟩
  intro label out err f m rc
  refine ⟨?_, ?_, ?_, rfl, ?_⟩
  · intro h
    simp [AdbFunc.deviceInfoLine, h]
  · intro h
    simp [AdbFunc.deviceInfoLine, h]
  · intro h
    simp [AdbFunc.deviceInfoLine, h]
  · intro lbl hl
    simp only [AdbFunc.format_output]
    by_cases h1 : lbl = "Total RAM"
    · exact absurd h1 hl
    rw [if_neg h1]
    by_cases h2 : lbl = "Total Storage"
    · rw [if_pos h2]
      exact ⟨_, rfl⟩
    rw [if_neg h2]
    by_cases h3 : lbl = "IMEI"
    · rw [if_pos h3]
      exact ⟨_, rfl⟩
    rw [if_neg h3]
    exact ⟨_, rfl⟩

/-- Witness for C4: the `Android Version` command with stdout
`" Android 13\n"` yields the line `Android Version: Android 13`. -/
theorem adbfunc_device_info_worker_lines_witness :
    AdbFunc.deviceInfoLine "Android Version"
        (.completed 0 " Android 13\n" "") =
      "Android Version" ++ ": " ++ String.mk "Android 13".data :=
  ((adbfunc_device_info_worker_lines
      (fun _ => Subproc.RunOutcome.completed 0 " Android 13\n" "") "adb").2.2
    "Android Version" " Android 13\n" "" "Android 13".data [] 1).1 rfl

namespace AdbFunc

/-- `WirelessADBDialog._validate_address` (`src/main/adbfunc.py` lines
199-212): non-empty, contains a colon, splits at the last colon into a
non-empty host and a port that `int()` accepts and that lies in
`1..65535`. -/
def validate_address (address : String) : Bool :=
  if address = "" then false
  else if !(Py.containsSub [':'] address.data) then false
  else
    match Py.rsplitLastChar ':' address.data with
    | some (host, port) =>
        match Py.pyIntParse port with
        | some n => decide (0 < host.length) && decide (1 ≤ n) && decide (n ≤ 65535)
        | none => false
    | none => false

/-- `WirelessADBDialog._connect_wireless_adb` (lines 179-197): strips the
entry text, validates it, and issues `adb connect <address>` through
`run_command_async` only when validation passes (an error dialog is shown
otherwise). -/
def connect_wireless_adb (text : String) : Option String :=
  let address := String.mk (Py.pyStrip text.data)
  if validate_address address then some ("adb connect " ++ address) else none

end AdbFunc

/-- C10: `_validate_address` accepts exactly the strings that are non-empty,
contain `:`, have a non-empty part before the last `:`, and whose part
after the last `:` parses as an integer in `1..65535`; and the
`adb connect` command is issued only for (stripped) addresses passing this
check, with the address embedded in the command. -/
theorem adbfunc_validate_address_correct (address : String) :
    (AdbFunc.validate_address address = true ↔
      (address ≠ "" ∧ Py.containsSub [':'] address.data = true ∧
       ∃ host port, Py.rsplitLastChar ':' address.data = some (host, port) ∧
         host ≠ [] ∧ ∃ n, Py.pyIntParse port = some n ∧ 1 ≤ n ∧ n ≤ 65535)) ∧
    ∀ cmd, AdbFunc.connect_wireless_adb address = some cmd →
      AdbFunc.validate_address (String.mk (Py.pyStrip address.data)) = true ∧
      cmd = "adb connect " ++ String.mk (Py.pyStrip address.data) := by
  constructor
  · by_cases h0 : address = ""
    · simp [AdbFunc.validate_address, h0]
    by_cases h1 : Py.containsSub [':'] address.data = true
    · cases hr : Py.rsplitLastChar ':' address.data with
      | none => simp [AdbFunc.validate_address, h0, h1, hr]
      | some hp =>
          obtain ⟨host, port⟩ := hp
          cases hn : Py.pyIntParse port with
          | none => simp [AdbFunc.validate_address, h0, h1, hr, hn]
          | some n =>
              have hL : AdbFunc.validate_address address =
                  (decide (0 < host.length) && decide (1 ≤ n) && decide (n ≤ 65535)) := by
                simp [AdbFunc.validate_address, h0, h1, hr, hn]
              rw [hL]
              constructor
              · intro h
                rw [Bool.and_eq_true, Bool.and_eq_true] at h
                obtain ⟨⟨ha, hb⟩, hc2⟩ := h
                refine ⟨h0, h1, host, port, rfl, ?_, n, hn, ?_, ?_⟩
                · exact List.length_pos.mp (of_decide_eq_true ha)
                · exact of_decide_eq_true hb
                · exact of_decide_eq_true hc2
              · rintro ⟨-, -, host', port', heq, hh, n', hn', h1', h2'⟩
                injection heq with heq2
                injection heq2 with e1 e2
                subst e1
                subst e2
                rw [hn] at hn'
                injection hn' with e3
                subst e3
                rw [Bool.and_eq_true, Bool.and_eq_true]
                exact ⟨⟨decide_eq_true (List.length_pos.mpr hh),
                  decide_eq_true h1'⟩, decide_eq_true h2'⟩
    · have h1f : Py.containsSub [':'] address.data = false :=
        Bool.not_eq_true _ ▸ Bool.eq_false_iff.mpr h1
      simp [AdbFunc.validate_address, h0, h1f, h1]
  · intro cmd hc
    simp only [AdbFunc.connect_wireless_adb] at hc
    by_cases hv : AdbFunc.validate_address (String.mk (Py.pyStrip address.data)) = true
    · rw [if_pos hv] at hc
      exact ⟨hv, (Option.some.inj hc).symm⟩
    · rw [if_neg hv] at hc
      cases hc

/-- Witness for C10 at `192.168.1.100:5555`. -/
theorem adbfunc_validate_address_correct_witness :
    AdbFunc.validate_address
        (String.mk (Py.pyStrip "192.168.1.100:5555".data)) = true ∧
    "adb connect 192.168.1.100:5555" =
      "adb connect " ++ String.mk (Py.pyStrip "192.168.1.100:5555".data) :=
  (adbfunc_validate_address_correct "192.168.1.100:5555").2
    "adb connect 192.168.1.100:5555" (by decide)

namespace Py

/-- Fuelled worker for `str.replace` (each step consumes at least one input
character, so `l.length` fuel is exact). -/
def replaceSubFuel (pat repl : List Char) : Nat → List Char → List Char
  | 0, l => l
  | _ + 1, [] => []
  | fuel + 1, c :: rest =>
    if !pat.isEmpty && pat.isPrefixOf (c :: rest) then
      repl ++ replaceSubFuel pat repl fuel ((c :: rest).drop pat.length)
    else c :: replaceSubFuel pat repl fuel rest

/-- Python `s.replace(pat, repl)`: non-overlapping occurrences replaced left
to right (for non-empty `pat`). -/
def replaceSub (pat repl l : List Char) : List Char :=
  replaceSubFuel pat repl l.length l

/-- Python `sep.join(parts)` for a single-character separator. -/
def joinChar (sep : Char) : List (List Char) → List Char
  | [] => []
  | [x] => x
  | x :: y :: rest => x ++ sep :: joinChar sep (y :: rest)

/-- Python `<` on strings: lexicographic comparison by code point,
as `≤` here. -/
def charListLe : List Char → List Char → Bool
  | [], _ => true
  | _ :: _, [] => false
  | a :: arest, b :: brest =>
    if a < b then true
    else if b < a then false
    else charListLe arest brest

/-- `≤` on `String` in Python's code-point order. -/
def strLe (a b : String) : Bool := charListLe a.data b.data

/-- Insertion into a sorted list (used to model Python `sorted`). -/
def insertSorted (x : String) : List String → List String
  | [] => [x]
  | y :: rest => if strLe x y then x :: y :: rest else y :: insertSorted x rest

/-- Python `sorted(...)` on strings (insertion sort; Python's sort is a
stable mergesort, but on a set's elements the orders agree). -/
def pySorted : List String → List String
  | [] => []
  | x :: rest => insertSorted x (pySorted rest)

/-- Membership is preserved by `insertSorted`. -/
theorem mem_insertSorted (p x : String) (l : List String) :
    p ∈ insertSorted x l ↔ p = x ∨ p ∈ l := by
  induction l with
  | nil => simp [insertSorted]
  | cons y rest ih =>
      by_cases h : strLe x y = true
      · simp [insertSorted, h]
      · simp only [insertSorted, h, if_neg, Bool.not_eq_true, if_false]
        simp only [List.mem_cons, ih]
        tauto

/-- Membership is preserved by `pySorted`. -/
theorem mem_pySorted (p : String) (l : List String) :
    p ∈ pySorted l ↔ p ∈ l := by
  induction l with
  | nil => simp [pySorted]
  | cons x rest ih =>
      rw [pySorted, mem_insertSorted, ih, List.mem_cons]

end Py

namespace AppMgr

/-- The path part of a `pm list packages -f` line: everything before the
last `=`, with `package:` removed and stripped
(`'='.join(parts[:-1]).replace("package:", "").strip()`). -/
def appFilePath (line : List Char) : List Char :=
  Py.pyStrip (Py.replaceSub "package:".data []
    (Py.joinChar '=' ((Py.splitAllChar '=' line).dropLast)))

/-- The package name of a line: the part after the last `=`, stripped
(`parts[-1].strip()`). -/
def packageNameOf (line : List Char) : List Char :=
  Py.pyStrip ((Py.splitAllChar '=' line).getLastD [])

/-- The app-type cascade of `parse_app_info`
(`src/modules/appmanager.py` lines 127-134). -/
def appTypeOf (line : List Char) : String :=
  if Py.containsSub "/data/app/".data (appFilePath line) then "User App"
  else if Py.containsSub "/system/app/".data (appFilePath line) ||
      Py.containsSub "/system/priv-app/".data (appFilePath line) then "System App"
  else if Py.containsSub "/vendor/".data (appFilePath line) then "Vendor App"
  else "Unknown"

/-- The display name: last dot-separated piece of the package name,
underscores to spaces, capitalized
(`package_name.split('.')[-1].replace('_', ' ').capitalize()`). -/
def appNameOf (line : List Char) : List Char :=
  Py.pyCapitalize
    (((Py.splitAllChar '.' (packageNameOf line)).getLastD []).map
      (fun c => if c = '_' then ' ' else c))

/-- `AppManagerWorker.parse_app_info` (lines 113-143): `(app_name,
package_name, app_type)`, or `none` (the `(None, None, None)` return) when
the package name is empty. -/
def parse_app_info (line : List Char) : Option (String × String × String) :=
  if (packageNameOf line).isEmpty then none
  else some (String.mk (appNameOf line), String.mk (packageNameOf line), appTypeOf line)

/-- The set of disabled package names from the `pm list packages -d`
output: each line with `package:` removed and stripped (lines 98-99). -/
def disabledSet (disabledOut : String) : List String :=
  (Py.pySplitlines disabledOut).map
    (fun l => String.mk (Py.pyStrip (Py.replaceSub "package:".data [] l)))

/-- One row of the app table: `(app_name, package_name, status,
app_type)`. -/
structure AppEntry where
  app_name : String
  package_name : String
  status : String
  app_type : String
deriving DecidableEq, Repr

/-- `AppManagerWorker.load_apps` (lines 86-111): parse every line of
`pm list packages -f`, keep entries with non-empty name and package, and
mark a package `Disabled` exactly when it occurs in the disabled set. -/
def load_apps (listOut disabledOut : String) : List AppEntry :=
  (Py.pySplitlines listOut).filterMap (fun line =>
    match parse_app_info line with
    | some (an, pn, at_) =>
        if an ≠ "" ∧ pn ≠ "" then
          some { app_name := an, package_name := pn,
                 status := if pn ∈ disabledSet disabledOut then "Disabled" else "Enabled",
                 app_type := at_ }
        else none
    | none => none)

end AppMgr

/-- C6: `parse_app_info` takes the package name from the text after the
last `=` (stripped), so APK paths containing `=` still split correctly, and
classifies by the path part in cascade order: `User App` on `/data/app/`,
else `System App` on `/system/app/` or `/system/priv-app/`, else
`Vendor App` on `/vendor/`, else `Unknown`; `load_apps` then marks an entry
`Disabled` iff its package name appears in the (prefix-stripped)
`pm list packages -d` output, else `Enabled`. -/
theorem appmanager_parse_and_load (listOut disabledOut : String) :
    (∀ line an pn at_, AppMgr.parse_app_info line = some (an, pn, at_) →
        pn = String.mk (Py.pyStrip ((Py.splitAllChar '=' line).getLastD [])) ∧
        at_ = AppMgr.appTypeOf line) ∧
    (∀ line, Py.containsSub "/data/app/".data (AppMgr.appFilePath line) = true →
        AppMgr.appTypeOf line = "User App") ∧
    (∀ line, Py.containsSub "/data/app/".data (AppMgr.appFilePath line) = false →
        (Py.containsSub "/system/app/".data (AppMgr.appFilePath line) = true ∨
         Py.containsSub "/system/priv-app/".data (AppMgr.appFilePath line) = true) →
        AppMgr.appTypeOf line = "System App") ∧
    (∀ line, Py.containsSub "/data/app/".data (AppMgr.appFilePath line) = false →
        Py.containsSub "/system/app/".data (AppMgr.appFilePath line) = false →
        Py.containsSub "/system/priv-app/".data (AppMgr.appFilePath line) = false →
        Py.containsSub "/vendor/".data (AppMgr.appFilePath line) = true →
        AppMgr.appTypeOf line = "Vendor App") ∧
    (∀ line, Py.containsSub "/data/app/".data (AppMgr.appFilePath line) = false →
        Py.containsSub "/system/app/".data (AppMgr.appFilePath line) = false →
        Py.containsSub "/system/priv-app/".data (AppMgr.appFilePath line) = false →
        Py.containsSub "/vendor/".data (AppMgr.appFilePath line) = false →
        AppMgr.appTypeOf line = "Unknown") ∧
    (∀ e ∈ AppMgr.load_apps listOut disabledOut,
        e.status = if e.package_name ∈ AppMgr.disabledSet disabledOut
          then "Disabled" else "Enabled") := by
  refine ⟨?_, ?_, ?_, ?_, ?_, ?_⟩
  · intro line an pn at_ h
    simp only [AppMgr.parse_app_info] at h
    by_cases he : (AppMgr.packageNameOf line).isEmpty
    · rw [if_pos he] at h; cases h
    · rw [if_neg he] at h
      injection h with h1
      injection h1 with e1 e2
      injection e2 with e2a e2b
      exact ⟨e2a.symm, e2b.symm⟩
  · intro line h
    simp [AppMgr.appTypeOf, h]
  · intro line h0 h1
    rcases h1 with h1 | h1 <;> simp [AppMgr.appTypeOf, h0, h1]
  · intro line h0 h1 h2 h3
    simp [AppMgr.appTypeOf, h0, h1, h2, h3]
  · intro line h0 h1 h2 h3
    simp [AppMgr.appTypeOf, h0, h1, h2, h3]
  · intro e he
    simp only [AppMgr.load_apps, List.mem_filterMap] at he
    obtain ⟨line, -, hf⟩ := he
    cases hp : AppMgr.parse_app_info line with
    | none => rw [hp] at hf; cases hf
    | some t =>
        obtain ⟨an, pn, at_⟩ := t
        rw [hp] at hf
        simp only at hf
        by_cases hc : an ≠ "" ∧ pn ≠ ""
        · rw [if_pos hc] at hf
          obtain rfl := (Option.some.inj hf).symm
          rfl
        · rw [if_neg hc] at hf; cases hf

/-- Witness for C6 on a two-line `pm list packages -f` output with an `=`
inside the APK path and a disabled-package list. -/
theorem appmanager_parse_and_load_witness :
    AppMgr.AppEntry.status
        { app_name := "Maps", package_name := "com.vendor.maps",
          status := "Disabled", app_type := "User App" }
      = (if "com.vendor.maps" ∈
            AppMgr.disabledSet "package:com.vendor.maps"
          then "Disabled" else "Enabled") :=
  (appmanager_parse_and_load
      "package:/data/app/~~x==/base.apk=com.vendor.maps"
      "package:com.vendor.maps").2.2.2.2.2
    { app_name := "Maps", package_name := "com.vendor.maps",
      status := "Disabled", app_type := "User App" }
    (by decide)

namespace AppMgr

/-- The JSON blob `create_preset` writes
(`src/modules/appmanager.py` lines 573-579). -/
structure Preset where
  name : String
  author : String
  description : String
  selected_packages : List String
deriving DecidableEq, Repr

/-- `AppManagerUI.create_preset` (lines 564-589): with an empty selection a
warning is shown and nothing is written (`none`); otherwise the preset is
written with `sorted(list(self.selected_packages))` under
`selected_packages` and a defaulted, stripped name. -/
def create_preset (selected : List String) (name author description : String) :
    Option Preset :=
  if selected = [] then none
  else some
    { name := if (Py.pyStrip name.data).isEmpty then "New Preset"
        else String.mk (Py.pyStrip name.data)
      author := String.mk (Py.pyStrip author.data)
      description := String.mk (Py.pyStrip description.data)
      selected_packages := Py.pySorted selected }

/-- `AppManagerUI._apply_preset` (lines 596-616): an empty package list
logs and returns with the selection untouched (`applied = false`); a
non-empty one deselects everything and re-checks exactly the shown rows
whose package name is listed.  Returns the new `selected_packages` and
whether the preset was applied. -/
def apply_preset (file : Preset) (shown current : List String) :
    List String × Bool :=
  if file.selected_packages = [] then (current, false)
  else (shown.filter (fun p => p ∈ file.selected_packages), true)

end AppMgr

/-- C8 (counterexample): the round trip fails for the empty selection:
`create_preset` writes no file at all for `S = ∅` (it warns and returns),
and `_apply_preset` on a preset whose package list is empty returns without
deselecting, leaving the current selection untouched. -/
theorem appmanager_C8_counterexample :
    AppMgr.create_preset [] "Debloat" "me" "d" = none ∧
    AppMgr.apply_preset
        { name := "Debloat", author := "me", description := "d",
          selected_packages := [] }
        ["com.a"] ["com.a"] = (["com.a"], false) :=
  ⟨rfl, rfl⟩

/-- C8 (amended): for every *non-empty* selection `S`, `create_preset`
writes `sorted(S)` under `selected_packages`, and `_apply_preset` on that
file deselects everything and checks exactly the listed rows, so the
resulting selection equals `S` intersected with the package names currently
shown. -/
theorem appmanager_preset_round_trip
    (S shown current : List String) (name author description : String)
    (hS : S ≠ []) :
    (AppMgr.create_preset S name author description).isSome = true ∧
    ∀ file, AppMgr.create_preset S name author description = some file →
      file.selected_packages = Py.pySorted S ∧
      (∀ p, p ∈ file.selected_packages ↔ p ∈ S) ∧
      (AppMgr.apply_preset file shown current).2 = true ∧
      (∀ p, p ∈ (AppMgr.apply_preset file shown current).1 ↔ p ∈ shown ∧ p ∈ S) := by
  constructor
  · simp [AppMgr.create_preset, hS]
  · intro file hf
    simp only [AppMgr.create_preset, if_neg hS] at hf
    obtain rfl := (Option.some.inj hf).symm
    have hmem : ∀ p, p ∈ Py.pySorted S ↔ p ∈ S := fun p => Py.mem_pySorted p S
    have hne : Py.pySorted S ≠ [] := by
      cases hSs : Py.pySorted S with
      | nil =>
          cases S with
          | nil => exact absurd rfl hS
          | cons x rest =>
              have : x ∈ Py.pySorted (x :: rest) := (hmem x).mpr (List.mem_cons_self x rest)
              rw [hSs] at this
              cases this
      | cons a l => simp
    refine ⟨rfl, hmem, ?_, ?_⟩
    · simp only [AppMgr.apply_preset]
      rw [if_neg hne]
    · intro p
      simp only [AppMgr.apply_preset]
      rw [if_neg hne]
      simp only [List.mem_filter, decide_eq_true_eq]
      rw [hmem p]

/-- Witness for the amended C8 at `S = ["com.b", "com.a"]`,
`shown = ["com.a", "com.c"]`: the applied selection contains `com.a` iff it
is both shown and in `S`. -/
theorem appmanager_preset_round_trip_witness :
    "com.a" ∈ (AppMgr.apply_preset
        { name := "Debloat", author := "", description := "",
          selected_packages := Py.pySorted ["com.b", "com.a"] }
        ["com.a", "com.c"] ["com.x"]).1 ↔
      "com.a" ∈ ["com.a", "com.c"] ∧ "com.a" ∈ ["com.b", "com.a"] :=
  (((appmanager_preset_round_trip ["com.b", "com.a"] ["com.a", "com.c"] ["com.x"]
      "Debloat" "" "" (by decide)).2
    { name := "Debloat", author := "", description := "",
      selected_packages := Py.pySorted ["com.b", "com.a"] }
    (by decide)).2.2.2) "com.a"
